import Mathlib

/-!
Shallow embedding of the recipe-api repository (src/core/models.py and
src/recipe/views.py) together with the small slice of Python / Django /
REST-framework behaviour that those two files lean on.  Database tables are
embedded as Lists of records; a queryset chain becomes an explicit pipeline
of joins, filters, a sort and a deduplication, matching the SQL the ORM
calls generate; Python exceptions become an explicit error type threaded
through `Except`.
-/

namespace RecipeApi

/-! ### Python-level primitives -/

/-- Python exceptions that the embedded code can raise.  `valueError` is the
builtin ValueError (raised by `int()` on a malformed literal and by the code
in `UserManager`); `validationError` is the REST-framework/Django
ValidationError, which carries messages keyed by field name. -/
inductive PyErr where
  | valueError (msg : String)
  | validationError (fields : List (String × String))
deriving DecidableEq

/-- True exactly when the exception is a (field-keyed) ValidationError. -/
def PyErr.isValidation : PyErr → Bool
  | .validationError _ => true
  | .valueError _ => false

/-- True when a computation ended in a raised ValidationError. -/
def raisesValidationError {α : Type} : Except PyErr α → Bool
  | .error e => e.isValidation
  | .ok _ => false

/-- True when a computation finished without raising. -/
def exceptOk {α : Type} : Except PyErr α → Bool
  | .ok _ => true
  | .error _ => false

/-- Modelled from the spec: the excluded REST-framework request boundary.
A raised ValidationError is turned into a client-error response carrying the
structured field messages; any other exception escapes the handler and
becomes an unhandled server error. -/
inductive HttpOutcome where
  | success
  | clientFieldErrors (fields : List (String × String))
  | unhandledServerError (msg : String)
deriving DecidableEq

/-- Modelled from the spec: how the framework boundary classifies the result
of building the list queryset. -/
def dispatchList {α : Type} : Except PyErr (List α) → HttpOutcome
  | .ok _ => .success
  | .error (.validationError fs) => .clientFieldErrors fs
  | .error (.valueError m) => .unhandledServerError m

/-- ASCII whitespace, as stripped by `str.strip()` and skipped by `int()`. -/
def isPySpace (c : Char) : Bool :=
  c == ' ' || c == '\t' || c == '\n' || c == '\r' || c == '\x0b' || c == '\x0c'

/-- Strip leading and trailing whitespace from a character list, as
`str.strip()` does. -/
def stripChars (cs : List Char) : List Char :=
  ((cs.dropWhile isPySpace).reverse.dropWhile isPySpace).reverse

/-- Accumulate a run of ASCII decimal digits; `none` on any non-digit. -/
def parseDigitsAcc : List Char → Nat → Option Nat
  | [], acc => some acc
  | c :: rest, acc =>
    if c.isDigit then parseDigitsAcc rest (10 * acc + (c.toNat - '0'.toNat))
    else none

/-- Digit phase of Python `int()`: one or more ASCII decimal digits, with
the sign already consumed; anything else raises ValueError. -/
def pyIntDigits (ds : List Char) (neg : Bool) : Except PyErr Int :=
  match ds with
  | [] => .error (.valueError "invalid literal for int() with base 10")
  | _ =>
    match parseDigitsAcc ds 0 with
    | some n => .ok (if neg then -(n : Int) else (n : Int))
    | none => .error (.valueError "invalid literal for int() with base 10")

/-- Sign phase of Python `int()`: an optional leading plus or minus. -/
def pyIntCore (cs : List Char) : Except PyErr Int :=
  match cs with
  | '+' :: rest => pyIntDigits rest false
  | '-' :: rest => pyIntDigits rest true
  | rest => pyIntDigits rest false

/-- Python `int()` applied to a string (decimal base): optional surrounding
whitespace, an optional sign, then one or more ASCII decimal digits.
Anything else raises ValueError.  (Digit-grouping underscores and non-ASCII
digits, which real `int()` also accepts, are not modelled; no claim depends
on them.) -/
def pyInt (s : String) : Except PyErr Int :=
  pyIntCore (stripChars s.data)

/-- Python truthiness of a string: false exactly on the empty string. -/
def pyTruthy (s : String) : Bool := !s.data.isEmpty

/-- Character-level worker for `str.split(",")`. -/
def splitCommaChars : List Char → List (List Char)
  | [] => [[]]
  | c :: cs =>
    match splitCommaChars cs with
    | [] => [[c]]
    | g :: gs => if c = ',' then [] :: g :: gs else (c :: g) :: gs

/-- Python `s.split(",")`: the empty string yields `[""]`, and empty
segments between, before or after commas are kept. -/
def pySplitComma (s : String) : List String :=
  (splitCommaChars s.data).map String.mk

/-! ### Data model (src/core/models.py) -/

/-- A row of the Recipe table.  `tagIds` and `ingredientIds` embed the two
many-to-many association tables as adjacency lists; `price` stores the
DecimalField(max_digits=5, decimal_places=2) value in hundredths. -/
structure Recipe where
  id : Nat
  title : String := ""
  description : String := ""
  time_minutes : Int := 0
  price : Int := 0
  link : String := ""
  userId : Nat
  tagIds : List Nat := []
  ingredientIds : List Nat := []
  image : Option String := none
deriving DecidableEq

/-- A row of the Tag or Ingredient table: both have exactly a name and an
owning user (plus the primary key). -/
structure Attr where
  id : Nat
  name : String
  userId : Nat
deriving DecidableEq

/-! ### Queryset pipeline (src/recipe/views.py) -/

/-- Ordering used by `.order_by("-id")`: descending primary key. -/
def recipeIdDesc (a b : Recipe) : Prop := b.id ≤ a.id

instance : DecidableRel recipeIdDesc := fun a b => Nat.decLe b.id a.id

instance : IsTotal Recipe recipeIdDesc := ⟨fun a b => Nat.le_total b.id a.id⟩

instance : IsTrans Recipe recipeIdDesc := ⟨fun _ _ _ h₁ h₂ => Nat.le_trans h₂ h₁⟩

/-- Ordering used by `.order_by("-name")`: descending name. -/
def attrNameDesc (a b : Attr) : Prop := b.name ≤ a.name

instance : DecidableRel attrNameDesc :=
  fun a b => inferInstanceAs (Decidable (b.name ≤ a.name))

instance : IsTotal Attr attrNameDesc := ⟨fun a b => le_total b.name a.name⟩

instance : IsTrans Attr attrNameDesc := ⟨fun _ _ _ h₁ h₂ => le_trans h₂ h₁⟩

/-- The SQL join produced by `.filter(tags__id__in=tag_ids)`: each recipe row
is repeated once per association-table row whose tag id is in the list. -/
def filterByTagIds (rows : List Recipe) (ids : List Int) : List Recipe :=
  rows.flatMap fun r =>
    (r.tagIds.filter (fun (t : Nat) => decide ((t : Int) ∈ ids))).map fun _ => r

/-- The SQL join produced by `.filter(ingredients__id__in=ingredient_ids)`. -/
def filterByIngredientIds (rows : List Recipe) (ids : List Int) : List Recipe :=
  rows.flatMap fun r =>
    (r.ingredientIds.filter (fun (t : Nat) => decide ((t : Int) ∈ ids))).map fun _ => r

/-- The tail of RecipeViewset.get_queryset:
`.filter(user=self.request.user).order_by("-id").distinct()`. -/
def finalizeRecipes (rows : List Recipe) (userId : Nat) : List Recipe :=
  (List.insertionSort recipeIdDesc
    (rows.filter fun r => decide (r.userId = userId))).dedup

/-- RecipeViewset._params_to_ints: `[int(x) for x in qs.split(",")]`,
evaluated left to right, raising at the first malformed token. -/
def ints_of_tokens : List String → Except PyErr (List Int)
  | [] => .ok []
  | s :: rest =>
    match pyInt s with
    | .error e => .error e
    | .ok n =>
      match ints_of_tokens rest with
      | .error e => .error e
      | .ok ns => .ok (n :: ns)

/-- RecipeViewset._params_to_ints. -/
def params_to_ints (qs : String) : Except PyErr (List Int) :=
  ints_of_tokens (pySplitComma qs)

/-- One `if param:` block of RecipeViewset.get_queryset: a missing or falsy
(empty) parameter leaves the queryset unchanged; a truthy one is parsed with
_params_to_ints and the corresponding join filter is applied. -/
def applyParamFilter (rows : List Recipe) (param : Option String)
    (apply : List Recipe → List Int → List Recipe) : Except PyErr (List Recipe) :=
  match param with
  | none => .ok rows
  | some s =>
    if pyTruthy s then
      match params_to_ints s with
      | .error e => .error e
      | .ok ids => .ok (apply rows ids)
    else .ok rows

/-- RecipeViewset.get_queryset: the `tags` block, then the `ingredients`
block, then the owner filter, descending-id ordering and DISTINCT. -/
def recipe_get_queryset (db : List Recipe) (userId : Nat)
    (tags ingredients : Option String) : Except PyErr (List Recipe) :=
  match applyParamFilter db tags filterByTagIds with
  | .error e => .error e
  | .ok qs₁ =>
    match applyParamFilter qs₁ ingredients filterByIngredientIds with
    | .error e => .error e
    | .ok qs₂ => .ok (finalizeRecipes qs₂ userId)

/-- The SQL join produced by `.filter(recipe__isnull=False)` on the reverse
many-to-many relation: each attribute row is repeated once per recipe that
references it, with no restriction on that recipe's owner. -/
def assignedJoin (attrs : List Attr) (recipes : List Recipe)
    (proj : Recipe → List Nat) : List Attr :=
  attrs.flatMap fun a =>
    (recipes.filter (fun r => decide (a.id ∈ proj r))).map fun _ => a

/-- The tail of BaseRecipeAttrViewSet.get_queryset:
`.filter(user=self.request.user).order_by("-name").distinct()`. -/
def finalizeAttrs (rows : List Attr) (userId : Nat) : List Attr :=
  (List.insertionSort attrNameDesc
    (rows.filter fun a => decide (a.userId = userId))).dedup

/-- BaseRecipeAttrViewSet.get_queryset:
`bool(int(self.request.query_params.get("assigned_only", 0)))`, then the
optional assigned join, then owner filter, name ordering and DISTINCT.
`proj` selects which association table the viewset joins against. -/
def attr_get_queryset (attrs : List Attr) (recipes : List Recipe)
    (proj : Recipe → List Nat) (userId : Nat)
    (assigned_only_param : Option String) : Except PyErr (List Attr) :=
  match (match assigned_only_param with
         | none => Except.ok 0
         | some s => pyInt s) with
  | .error e => .error e
  | .ok n =>
    .ok (finalizeAttrs
      (if n != 0 then assignedJoin attrs recipes proj else attrs) userId)

/-- TagViewSet: the attribute queryset joined against the recipe-tag table. -/
def tag_get_queryset (tags : List Attr) (recipes : List Recipe) (userId : Nat)
    (assigned_only_param : Option String) : Except PyErr (List Attr) :=
  attr_get_queryset tags recipes (fun r => r.tagIds) userId assigned_only_param

/-- IngredientViewSet: the attribute queryset joined against the
recipe-ingredient table. -/
def ingredient_get_queryset (ingredients : List Attr) (recipes : List Recipe)
    (userId : Nat) (assigned_only_param : Option String) : Except PyErr (List Attr) :=
  attr_get_queryset ingredients recipes (fun r => r.ingredientIds) userId
    assigned_only_param

/-! ### User manager (src/core/models.py, class UserManager) -/

/-- What the credential column holds.  `set_password` only ever stores the
`hashed` form; the `plaintext` form exists so that "never the plaintext" is
a non-vacuous statement. -/
inductive Credential where
  | plaintext (p : Option String)
  | hashed (p : Option String)
deriving DecidableEq

/-- The `**extra_fields` kwargs that the claims exercise: an explicitly
supplied `is_staff` or `is_superuser` value, or its absence.  Other model
fields passable through `extra_fields` (such as `name`) are orthogonal to
every claim and are not modelled. -/
structure ExtraFields where
  is_staff : Option Bool := none
  is_superuser : Option Bool := none
deriving DecidableEq

/-- A row of the User table.  `is_active` defaults to true, `is_staff` and
`is_superuser` to false, as in the model declarations. -/
structure PyUser where
  email : String
  is_active : Bool := true
  is_staff : Bool := false
  is_superuser : Bool := false
  password : Credential
deriving DecidableEq

/-- Split a character list at the last occurrence of the at sign, as
`rsplit` with maxsplit 1 does; `none` when there is no at sign. -/
def rsplitAtSign : List Char → Option (List Char × List Char)
  | [] => none
  | c :: cs =>
    match rsplitAtSign cs with
    | some (n, d) => some (c :: n, d)
    | none => if c = '@' then some ([], cs) else none

/-- Django BaseUserManager.normalize_email (framework code the manager
calls): strip the email, split it at the last at sign and lowercase the
domain part; an email with no at sign is returned unchanged.  Lowercasing
is modelled on ASCII letters. -/
def normalize_email (email : String) : String :=
  match rsplitAtSign (stripChars email.data) with
  | none => email
  | some (name, domain) => String.mk (name ++ '@' :: domain.map Char.toLower)

/-- Django AbstractBaseUser.set_password (framework code): the stored
credential is a hash of the given password, which may be None. -/
def set_password (p : Option String) : Credential := .hashed p

/-- UserManager.create_user.  The Python signature defaults `password` to
None when the argument is omitted.  Raises the builtin ValueError on a
falsy (empty) email; otherwise normalizes the email, applies the
extra-field kwargs, hashes the password and returns the saved user. -/
def create_user (email : String) (password : Option String)
    (extra : ExtraFields) : Except PyErr PyUser :=
  if email = "" then .error (.valueError "User must have an email address.")
  else
    .ok { email := normalize_email email,
          is_staff := extra.is_staff.getD false,
          is_superuser := extra.is_superuser.getD false,
          password := set_password password }

/-- UserManager.create_superuser: setdefault both flags to True, raise the
builtin ValueError if either is then not True, and delegate to
create_user. -/
def create_superuser (email : String) (password : Option String)
    (extra : ExtraFields) : Except PyErr PyUser :=
  if some (extra.is_staff.getD true) ≠ some true then
    .error (.valueError "Superuser must have is_staff=True.")
  else if some (extra.is_superuser.getD true) ≠ some true then
    .error (.valueError "Superuser must have is_superuser=True.")
  else
    create_user email password
      { is_staff := some (extra.is_staff.getD true),
        is_superuser := some (extra.is_superuser.getD true) }

/-! ### Recipe create and image upload (src/recipe/views.py) -/

/-- The validated payload of a recipe-create request.  `user` is an
ownership value the client may have put in the payload; the view never
reads it. -/
structure RecipePayload where
  title : String := ""
  description : String := ""
  time_minutes : Int := 0
  price : Int := 0
  link : String := ""
  user : Option Nat := none
deriving DecidableEq

/-- RecipeViewset.perform_create: `serializer.save(user=self.request.user)`.
Modelled from the spec: the serializer layer (src/recipe/serializers.py is
not included under src/) persists the validated fields with a fresh primary
key and empty tag and ingredient lists; the explicit `user=` keyword forces
the owner to the caller, overriding any ownership value in the payload. -/
def perform_create (callerId : Nat) (newId : Nat) (p : RecipePayload) : Recipe :=
  { id := newId,
    title := p.title,
    description := p.description,
    time_minutes := p.time_minutes,
    price := p.price,
    link := p.link,
    userId := callerId,
    tagIds := [],
    ingredientIds := [],
    image := none }

/-- The multipart payload of an upload-image request. -/
structure ImagePayload where
  image : Option String
deriving DecidableEq

/-- Modelled from the spec: RecipeImageSerializer lives in
src/recipe/serializers.py, which is not included under src/.  The spec says
the action accepts a single image and distinguishes validation success from
failure; validation is modelled as requiring a present, non-empty image
file. -/
def imageSerializerValid (p : ImagePayload) : Bool :=
  match p.image with
  | some f => !f.data.isEmpty
  | none => false

/-- The body of an upload-image response: either the updated serialized
record or errors keyed by field name. -/
inductive UploadBody where
  | data (r : Recipe)
  | fieldErrors (errs : List (String × String))
deriving DecidableEq

/-- An upload-image response together with the resulting state of the
recipe instance. -/
structure UploadResult where
  status : Nat
  body : UploadBody
  instanceAfter : Recipe
deriving DecidableEq

/-- RecipeViewset.upload_image: validate the payload against the image
serializer; on success persist the image and answer 200 with the updated
representation, on failure leave the instance untouched and answer 400 with
the field-keyed errors. -/
def upload_image (recipe : Recipe) (payload : ImagePayload) : UploadResult :=
  if imageSerializerValid payload then
    { status := 200,
      body := .data { recipe with image := payload.image },
      instanceAfter := { recipe with image := payload.image } }
  else
    { status := 400,
      body := .fieldErrors [("image", "Upload a valid image.")],
      instanceAfter := recipe }

/-! ### Concrete records used by witnesses and counterexamples -/

/-- Recipe owned by user 1, used by the C1 witness. -/
def c1Recipe : Recipe := { id := 1, userId := 1 }

/-- Recipe owned by user 1 carrying tag 1 and ingredient 3, used by the C2
witness. -/
def c2Recipe : Recipe := { id := 1, userId := 1, tagIds := [1], ingredientIds := [3] }

/-- Tag owned by user 1, used by the C3 counterexample. -/
def c3Tag : Attr := { id := 5, name := "vegan", userId := 1 }

/-- Recipe owned by user 2 that references user 1 tag `c3Tag`, used by the
C3 counterexample. -/
def c3Recipe : Recipe := { id := 9, userId := 2, tagIds := [5] }

/-- Recipe instance used by the C7 witness. -/
def c7Recipe : Recipe := { id := 4, userId := 1 }

/-! ### Pipeline lemmas -/

theorem mem_finalizeRecipes {rows : List Recipe} {u : Nat} {r : Recipe} :
    r ∈ finalizeRecipes rows u ↔ r ∈ rows ∧ r.userId = u := by
  simp [finalizeRecipes, List.mem_dedup, List.mem_insertionSort, List.mem_filter]

theorem nodup_finalizeRecipes (rows : List Recipe) (u : Nat) :
    (finalizeRecipes rows u).Nodup :=
  List.nodup_dedup _

theorem sorted_finalizeRecipes (rows : List Recipe) (u : Nat) :
    (finalizeRecipes rows u).Sorted recipeIdDesc :=
  List.Pairwise.sublist (List.dedup_sublist _)
    (List.sorted_insertionSort recipeIdDesc _)

theorem mem_finalizeAttrs {rows : List Attr} {u : Nat} {a : Attr} :
    a ∈ finalizeAttrs rows u ↔ a ∈ rows ∧ a.userId = u := by
  simp [finalizeAttrs, List.mem_dedup, List.mem_insertionSort, List.mem_filter]

theorem nodup_finalizeAttrs (rows : List Attr) (u : Nat) :
    (finalizeAttrs rows u).Nodup :=
  List.nodup_dedup _

theorem sorted_finalizeAttrs (rows : List Attr) (u : Nat) :
    (finalizeAttrs rows u).Sorted attrNameDesc :=
  List.Pairwise.sublist (List.dedup_sublist _)
    (List.sorted_insertionSort attrNameDesc _)

theorem mem_filterByTagIds {rows : List Recipe} {ids : List Int} {r : Recipe} :
    r ∈ filterByTagIds rows ids ↔ r ∈ rows ∧ ∃ t : Nat, t ∈ r.tagIds ∧ (t : Int) ∈ ids := by
  unfold filterByTagIds
  rw [List.mem_flatMap]
  constructor
  · rintro ⟨a, ha, hm⟩
    rw [List.mem_map] at hm
    obtain ⟨t, htf, rfl⟩ := hm
    rw [List.mem_filter] at htf
    exact ⟨ha, t, htf.1, of_decide_eq_true htf.2⟩
  · rintro ⟨hr, t, ht, hid⟩
    refine ⟨r, hr, ?_⟩
    rw [List.mem_map]
    exact ⟨t, List.mem_filter.mpr ⟨ht, decide_eq_true hid⟩, rfl⟩

theorem mem_filterByIngredientIds {rows : List Recipe} {ids : List Int} {r : Recipe} :
    r ∈ filterByIngredientIds rows ids ↔
      r ∈ rows ∧ ∃ t : Nat, t ∈ r.ingredientIds ∧ (t : Int) ∈ ids := by
  unfold filterByIngredientIds
  rw [List.mem_flatMap]
  constructor
  · rintro ⟨a, ha, hm⟩
    rw [List.mem_map] at hm
    obtain ⟨t, htf, rfl⟩ := hm
    rw [List.mem_filter] at htf
    exact ⟨ha, t, htf.1, of_decide_eq_true htf.2⟩
  · rintro ⟨hr, t, ht, hid⟩
    refine ⟨r, hr, ?_⟩
    rw [List.mem_map]
    exact ⟨t, List.mem_filter.mpr ⟨ht, decide_eq_true hid⟩, rfl⟩

theorem mem_assignedJoin {attrs : List Attr} {recipes : List Recipe}
    {proj : Recipe → List Nat} {a : Attr} :
    a ∈ assignedJoin attrs recipes proj ↔
      a ∈ attrs ∧ ∃ r ∈ recipes, a.id ∈ proj r := by
  unfold assignedJoin
  rw [List.mem_flatMap]
  constructor
  · rintro ⟨b, hb, hm⟩
    rw [List.mem_map] at hm
    obtain ⟨r, hrf, rfl⟩ := hm
    rw [List.mem_filter] at hrf
    exact ⟨hb, r, hrf.1, of_decide_eq_true hrf.2⟩
  · rintro ⟨hb, r, hr, hid⟩
    refine ⟨a, hb, ?_⟩
    rw [List.mem_map]
    exact ⟨r, List.mem_filter.mpr ⟨hr, decide_eq_true hid⟩, rfl⟩

theorem recipe_get_queryset_eq {db : List Recipe} {u : Nat}
    {tags ings : Option String} {l₁ l₂ : List Recipe}
    (h₁ : applyParamFilter db tags filterByTagIds = .ok l₁)
    (h₂ : applyParamFilter l₁ ings filterByIngredientIds = .ok l₂) :
    recipe_get_queryset db u tags ings = .ok (finalizeRecipes l₂ u) := by
  unfold recipe_get_queryset
  simp only [h₁, h₂]

theorem recipe_get_queryset_ok_userId {db : List Recipe} {u : Nat}
    {tags ings : Option String} {L : List Recipe} {r : Recipe}
    (h : recipe_get_queryset db u tags ings = .ok L) (hr : r ∈ L) :
    r.userId = u := by
  unfold recipe_get_queryset at h
  split at h
  · simp at h
  · split at h
    · simp at h
    · injection h with h
      subst h
      exact (mem_finalizeRecipes.mp hr).2

theorem attr_get_queryset_ok_userId {attrs : List Attr} {recipes : List Recipe}
    {proj : Recipe → List Nat} {u : Nat} {p : Option String} {L : List Attr}
    {a : Attr} (h : attr_get_queryset attrs recipes proj u p = .ok L)
    (ha : a ∈ L) : a.userId = u := by
  unfold attr_get_queryset at h
  split at h
  · simp at h
  · injection h with h
    subst h
    exact (mem_finalizeAttrs.mp ha).2

theorem pyIntDigits_error_isValidation {ds : List Char} {neg : Bool} {e : PyErr}
    (h : pyIntDigits ds neg = .error e) : e.isValidation = false := by
  unfold pyIntDigits at h
  split at h
  · injection h with h
    subst h
    rfl
  · split at h
    · simp at h
    · injection h with h
      subst h
      rfl

theorem pyInt_error_isValidation {s : String} {e : PyErr}
    (h : pyInt s = .error e) : e.isValidation = false := by
  unfold pyInt pyIntCore at h
  split at h <;> exact pyIntDigits_error_isValidation h

theorem ints_of_tokens_error_isValidation :
    ∀ {l : List String} {e : PyErr}, ints_of_tokens l = .error e →
      e.isValidation = false := by
  intro l
  induction l with
  | nil =>
    intro e h
    simp [ints_of_tokens] at h
  | cons s rest ih =>
    intro e h
    unfold ints_of_tokens at h
    cases hp : pyInt s with
    | error e₁ =>
      rw [hp] at h
      injection h with h
      subst h
      exact pyInt_error_isValidation hp
    | ok n =>
      rw [hp] at h
      cases hr : ints_of_tokens rest with
      | error e₂ =>
        rw [hr] at h
        injection h with h
        subst h
        exact ih hr
      | ok ns =>
        rw [hr] at h
        simp at h

theorem params_to_ints_error_isValidation {s : String} {e : PyErr}
    (h : params_to_ints s = .error e) : e.isValidation = false :=
  ints_of_tokens_error_isValidation h

theorem create_user_ok (email : String) (pw : Option String)
    (extra : ExtraFields) (hne : email ≠ "") :
    create_user email pw extra = .ok
      { email := normalize_email email,
        is_staff := extra.is_staff.getD false,
        is_superuser := extra.is_superuser.getD false,
        password := Credential.hashed pw } := by
  simp only [create_user, if_neg hne]
  rfl

/-! ### Claim theorems -/

/-- Claim C1: for every pair of distinct users A and B and every database
state, the list operation of the recipe, tag and ingredient endpoints
invoked by A returns only records whose owning user is A; no record owned
by B ever appears in the result. -/
theorem C1_list_endpoints_owner_scoped (A B : Nat) (hAB : A ≠ B) :
    (∀ (db : List Recipe) (tags ings : Option String) (L : List Recipe)
        (r : Recipe), recipe_get_queryset db A tags ings = .ok L → r ∈ L →
        r.userId = A ∧ r.userId ≠ B)
    ∧ (∀ (ts : List Attr) (recipes : List Recipe) (p : Option String)
        (L : List Attr) (a : Attr), tag_get_queryset ts recipes A p = .ok L →
        a ∈ L → a.userId = A ∧ a.userId ≠ B)
    ∧ (∀ (ings : List Attr) (recipes : List Recipe) (p : Option String)
        (L : List Attr) (a : Attr),
        ingredient_get_queryset ings recipes A p = .ok L → a ∈ L →
        a.userId = A ∧ a.userId ≠ B) := by
  refine ⟨?_, ?_, ?_⟩
  · intro db tags ings L r h hr
    have hu := recipe_get_queryset_ok_userId h hr
    exact ⟨hu, by rw [hu]; exact hAB⟩
  · intro ts recipes p L a h ha
    have hu := attr_get_queryset_ok_userId h ha
    exact ⟨hu, by rw [hu]; exact hAB⟩
  · intro ings recipes p L a h ha
    have hu := attr_get_queryset_ok_userId h ha
    exact ⟨hu, by rw [hu]; exact hAB⟩

/-- Witness for C1 at users 1 and 2 with a one-recipe database. -/
theorem C1_witness : c1Recipe.userId = 1 ∧ c1Recipe.userId ≠ 2 :=
  (C1_list_endpoints_owner_scoped 1 2 (by decide)).1 [c1Recipe] none none
    [c1Recipe] c1Recipe rfl (List.mem_singleton.mpr rfl)

/-- Claim C2: for an authenticated caller and comma-separated id lists, the
recipe list returns exactly the caller-owned recipes referencing at least
one listed tag id (intersected with at least one listed ingredient id when
both parameters are given), with no duplicates and ordered by descending
identifier. -/
theorem C2_recipe_list_filtering (db : List Recipe) (u : Nat)
    (tagsStr ingsStr : String) (tagIds ingIds : List Int)
    (htt : pyTruthy tagsStr = true) (htp : params_to_ints tagsStr = .ok tagIds)
    (hit : pyTruthy ingsStr = true) (hip : params_to_ints ingsStr = .ok ingIds) :
    (∃ L, recipe_get_queryset db u (some tagsStr) none = .ok L
      ∧ (∀ r, r ∈ L ↔ r ∈ db ∧ r.userId = u ∧
          ∃ t : Nat, t ∈ r.tagIds ∧ (t : Int) ∈ tagIds)
      ∧ L.Nodup ∧ L.Sorted recipeIdDesc)
    ∧ (∃ L, recipe_get_queryset db u none (some ingsStr) = .ok L
      ∧ (∀ r, r ∈ L ↔ r ∈ db ∧ r.userId = u ∧
          ∃ t : Nat, t ∈ r.ingredientIds ∧ (t : Int) ∈ ingIds)
      ∧ L.Nodup ∧ L.Sorted recipeIdDesc)
    ∧ (∃ L, recipe_get_queryset db u (some tagsStr) (some ingsStr) = .ok L
      ∧ (∀ r, r ∈ L ↔ r ∈ db ∧ r.userId = u ∧
          (∃ t : Nat, t ∈ r.tagIds ∧ (t : Int) ∈ tagIds) ∧
          (∃ t : Nat, t ∈ r.ingredientIds ∧ (t : Int) ∈ ingIds))
      ∧ L.Nodup ∧ L.Sorted recipeIdDesc) := by
  have eTag : applyParamFilter db (some tagsStr) filterByTagIds =
      .ok (filterByTagIds db tagIds) := by
    simp [applyParamFilter, htt, htp]
  have eIng : ∀ rows, applyParamFilter rows (some ingsStr) filterByIngredientIds =
      .ok (filterByIngredientIds rows ingIds) := by
    intro rows
    simp [applyParamFilter, hit, hip]
  refine ⟨⟨_, recipe_get_queryset_eq eTag rfl, ?_,
            nodup_finalizeRecipes _ _, sorted_finalizeRecipes _ _⟩,
          ⟨_, recipe_get_queryset_eq rfl (eIng db), ?_,
            nodup_finalizeRecipes _ _, sorted_finalizeRecipes _ _⟩,
          ⟨_, recipe_get_queryset_eq eTag (eIng _), ?_,
            nodup_finalizeRecipes _ _, sorted_finalizeRecipes _ _⟩⟩
  · intro r
    rw [mem_finalizeRecipes, mem_filterByTagIds]
    tauto
  · intro r
    rw [mem_finalizeRecipes, mem_filterByIngredientIds]
    tauto
  · intro r
    rw [mem_finalizeRecipes, mem_filterByIngredientIds, mem_filterByTagIds]
    tauto

/-- Witness for C2: caller 1 filtering by tags 1,2 and ingredients 3 over a
one-recipe database. -/
theorem C2_witness :
    (pyTruthy "1,2" = true ∧ params_to_ints "1,2" = .ok [1, 2]
      ∧ pyTruthy "3" = true ∧ params_to_ints "3" = .ok [3])
    ∧ ∃ L, recipe_get_queryset [c2Recipe] 1 (some "1,2") (some "3") = .ok L
        ∧ (∀ r, r ∈ L ↔ r ∈ [c2Recipe] ∧ r.userId = 1 ∧
            (∃ t : Nat, t ∈ r.tagIds ∧ (t : Int) ∈ [(1 : Int), 2]) ∧
            (∃ t : Nat, t ∈ r.ingredientIds ∧ (t : Int) ∈ [(3 : Int)]))
        ∧ L.Nodup ∧ L.Sorted recipeIdDesc :=
  ⟨⟨rfl, rfl, rfl, rfl⟩,
   (C2_recipe_list_filtering [c2Recipe] 1 "1,2" "3" [1, 2] [3]
     rfl rfl rfl rfl).2.2⟩

/-- Claim C3 is false on the code: with assigned_only equal to 1, caller 1
receives the caller-owned tag c3Tag although the only recipe referencing it
is owned by user 2 and the caller owns no recipe at all, so the result is
not restricted to attributes attached to a caller-owned recipe. -/
theorem C3_counterexample :
    tag_get_queryset [c3Tag] [c3Recipe] 1 (some "1") = .ok [c3Tag]
    ∧ c3Tag.userId = 1 ∧ c3Recipe.userId = 2
    ∧ List.filter (fun r => decide (r.userId = 1)) [c3Recipe] = [] :=
  ⟨rfl, rfl, rfl, rfl⟩

/-- Claim C3 amended: with assigned_only=1 the result is exactly the
caller-owned attributes attached to at least one recipe of any user (the
query does not restrict the attaching recipe to the caller); with
assigned_only=0 or the parameter absent it is all caller-owned attributes;
in both cases deduplicated and ordered by name descending. -/
theorem C3_assigned_only_amended (attrs : List Attr) (recipes : List Recipe)
    (proj : Recipe → List Nat) (u : Nat) :
    (∃ L, attr_get_queryset attrs recipes proj u (some "1") = .ok L
      ∧ (∀ a, a ∈ L ↔ a ∈ attrs ∧ a.userId = u ∧ ∃ r ∈ recipes, a.id ∈ proj r)
      ∧ L.Nodup ∧ L.Sorted attrNameDesc)
    ∧ attr_get_queryset attrs recipes proj u (some "0") =
        attr_get_queryset attrs recipes proj u none
    ∧ (∃ L, attr_get_queryset attrs recipes proj u none = .ok L
      ∧ (∀ a, a ∈ L ↔ a ∈ attrs ∧ a.userId = u)
      ∧ L.Nodup ∧ L.Sorted attrNameDesc) := by
  refine ⟨⟨finalizeAttrs (assignedJoin attrs recipes proj) u, rfl, ?_,
            nodup_finalizeAttrs _ _, sorted_finalizeAttrs _ _⟩, rfl,
          ⟨finalizeAttrs attrs u, rfl, ?_,
            nodup_finalizeAttrs _ _, sorted_finalizeAttrs _ _⟩⟩
  · intro a
    rw [mem_finalizeAttrs, mem_assignedJoin]
    tauto
  · intro a
    rw [mem_finalizeAttrs]

/-- Claim C4 is false on the code: a recipe list request whose tags
parameter contains the non-integer token x raises the builtin ValueError
from int(), which the framework boundary turns into an unhandled server
error, not a client-error response with structured field messages. -/
theorem C4_counterexample :
    recipe_get_queryset [] 1 (some "2,x") none =
      .error (.valueError "invalid literal for int() with base 10")
    ∧ raisesValidationError (recipe_get_queryset [] 1 (some "2,x") none) = false
    ∧ dispatchList (recipe_get_queryset [] 1 (some "2,x") none) =
        .unhandledServerError "invalid literal for int() with base 10" :=
  ⟨rfl, rfl, rfl⟩

/-- Claim C4 amended: a recipe list request whose tags parameter is truthy
and fails integer parsing fails, but with the uncaught builtin ValueError
from int(), which escapes as an unhandled server error instead of a
client-error response with structured field messages. -/
theorem C4_malformed_id_amended (db : List Recipe) (u : Nat) (tagsStr : String)
    (ings : Option String) (e : PyErr) (ht : pyTruthy tagsStr = true)
    (he : params_to_ints tagsStr = .error e) :
    recipe_get_queryset db u (some tagsStr) ings = .error e
    ∧ raisesValidationError (recipe_get_queryset db u (some tagsStr) ings) = false
    ∧ ∃ m, e = .valueError m ∧
        dispatchList (recipe_get_queryset db u (some tagsStr) ings) =
          .unhandledServerError m := by
  have h₁ : applyParamFilter db (some tagsStr) filterByTagIds = .error e := by
    simp [applyParamFilter, ht, he]
  have h₂ : recipe_get_queryset db u (some tagsStr) ings = .error e := by
    unfold recipe_get_queryset
    simp only [h₁]
  have hval : e.isValidation = false := params_to_ints_error_isValidation he
  refine ⟨h₂, ?_, ?_⟩
  · rw [h₂]
    exact hval
  · cases e with
    | valueError m =>
      refine ⟨m, rfl, ?_⟩
      rw [h₂]
      rfl
    | validationError fs => simp [PyErr.isValidation] at hval

/-- Witness for C4 amended at the malformed token x. -/
theorem C4_witness :
    (pyTruthy "x" = true ∧ params_to_ints "x" =
      .error (.valueError "invalid literal for int() with base 10"))
    ∧ recipe_get_queryset [] 1 (some "x") none =
        .error (.valueError "invalid literal for int() with base 10") :=
  ⟨⟨rfl, rfl⟩, (C4_malformed_id_amended [] 1 "x" none _ rfl rfl).1⟩

/-- Claim C5 is false on the code: create_user with an empty email raises
the builtin ValueError, not a ValidationError. -/
theorem C5_counterexample :
    create_user "" none {} =
      .error (.valueError "User must have an email address.")
    ∧ raisesValidationError (create_user "" none {}) = false :=
  ⟨rfl, rfl⟩

/-- Claim C5 amended: create_user raises the builtin ValueError if and only
if the given email is empty; with a non-empty email it returns a created
user whose email has its domain case normalized and whose stored credential
is a hash of the given password, never the plaintext. -/
theorem C5_create_user_amended (email : String) (pw : Option String)
    (extra : ExtraFields) :
    (create_user email pw extra =
        .error (.valueError "User must have an email address.") ↔ email = "")
    ∧ (email ≠ "" → create_user email pw extra = .ok
        { email := normalize_email email,
          is_staff := extra.is_staff.getD false,
          is_superuser := extra.is_superuser.getD false,
          password := Credential.hashed pw })
    ∧ (∀ (u : PyUser) (s : Option String), create_user email pw extra = .ok u →
        u.password = Credential.hashed pw ∧ u.password ≠ Credential.plaintext s) := by
  refine ⟨⟨?_, ?_⟩, fun hne => create_user_ok email pw extra hne, ?_⟩
  · intro hc
    by_contra hne
    rw [create_user_ok email pw extra hne] at hc
    exact absurd hc (by simp)
  · intro h
    subst h
    rfl
  · intro u s hu
    unfold create_user at hu
    split at hu
    · simp at hu
    · injection hu with hu
      subst hu
      exact ⟨rfl, by simp [set_password]⟩

/-- Witness for C5 amended: a mixed-case email is normalized and the
credential stored hashed. -/
theorem C5_witness :
    ("USER@Example.COM" ≠ "")
    ∧ create_user "USER@Example.COM" (some "secret123") {} = .ok
        { email := "USER@example.com", is_staff := false, is_superuser := false,
          password := Credential.hashed (some "secret123") } :=
  ⟨by decide,
   ((C5_create_user_amended "USER@Example.COM" (some "secret123") {}).2.1
     (by decide)).trans rfl⟩

/-- Claim C6 is false on the code: create_superuser with is_staff
explicitly False raises the builtin ValueError, not a ValidationError. -/
theorem C6_counterexample :
    create_superuser "admin@example.com" (some "pw") { is_staff := some false } =
      .error (.valueError "Superuser must have is_staff=True.")
    ∧ raisesValidationError
        (create_superuser "admin@example.com" (some "pw")
          { is_staff := some false }) = false :=
  ⟨rfl, rfl⟩

/-- Claim C6 amended: create_superuser fails with the builtin ValueError
whenever the caller explicitly supplies False for is_staff or is_superuser;
when neither flag is supplied it delegates to create_user with both flags
forced to True, and for a non-empty email the returned user has both flags
true. -/
theorem C6_create_superuser_amended (email : String) (pw : Option String)
    (extra : ExtraFields) :
    ((extra.is_staff = some false ∨ extra.is_superuser = some false) →
      ∃ m, create_superuser email pw extra = .error (.valueError m))
    ∧ create_superuser email pw {} =
        create_user email pw { is_staff := some true, is_superuser := some true }
    ∧ (email ≠ "" → create_superuser email pw {} = .ok
        { email := normalize_email email, is_staff := true, is_superuser := true,
          password := Credential.hashed pw }) := by
  refine ⟨?_, rfl, ?_⟩
  · rintro (hst | hsu)
    · exact ⟨"Superuser must have is_staff=True.",
        by simp [create_superuser, hst]⟩
    · cases hst : extra.is_staff with
      | none =>
        exact ⟨"Superuser must have is_superuser=True.",
          by simp [create_superuser, hst, hsu]⟩
      | some b =>
        cases b
        · exact ⟨"Superuser must have is_staff=True.",
            by simp [create_superuser, hst]⟩
        · exact ⟨"Superuser must have is_superuser=True.",
            by simp [create_superuser, hst, hsu]⟩
  · intro hne
    exact create_user_ok email pw
      { is_staff := some true, is_superuser := some true } hne

/-- Witness for C6 amended: an explicit False is_staff fails, and the
default path returns a staff superuser. -/
theorem C6_witness :
    (∃ m, create_superuser "root@example.com" (some "pw12")
        { is_staff := some false } = .error (.valueError m))
    ∧ create_superuser "root@example.com" (some "pw12") {} = .ok
        { email := "root@example.com", is_staff := true, is_superuser := true,
          password := Credential.hashed (some "pw12") } :=
  ⟨(C6_create_superuser_amended "root@example.com" (some "pw12")
      { is_staff := some false }).1 (Or.inl rfl),
   ((C6_create_superuser_amended "root@example.com" (some "pw12") {}).2.2
     (by decide)).trans rfl⟩

/-- Claim C7: a POST to upload-image on a caller-owned recipe persists the
image and answers 200 with the updated representation when the payload
passes image validation, and otherwise persists nothing and answers 400
with errors keyed by field name. -/
theorem C7_upload_image_response (recipe : Recipe) (p : ImagePayload) :
    (imageSerializerValid p = true →
      upload_image recipe p =
        { status := 200,
          body := .data { recipe with image := p.image },
          instanceAfter := { recipe with image := p.image } })
    ∧ (imageSerializerValid p = false →
      upload_image recipe p =
        { status := 400,
          body := .fieldErrors [("image", "Upload a valid image.")],
          instanceAfter := recipe }) := by
  constructor
  · intro h
    simp [upload_image, h]
  · intro h
    simp [upload_image, h]

/-- Witness for C7: one valid and one invalid payload on c7Recipe. -/
theorem C7_witness :
    (imageSerializerValid { image := some "photo.jpg" } = true
      ∧ upload_image c7Recipe { image := some "photo.jpg" } =
        { status := 200,
          body := .data { c7Recipe with image := some "photo.jpg" },
          instanceAfter := { c7Recipe with image := some "photo.jpg" } })
    ∧ (imageSerializerValid { image := none } = false
      ∧ upload_image c7Recipe { image := none } =
        { status := 400,
          body := .fieldErrors [("image", "Upload a valid image.")],
          instanceAfter := c7Recipe }) :=
  ⟨⟨rfl, (C7_upload_image_response c7Recipe { image := some "photo.jpg" }).1 rfl⟩,
   ⟨rfl, (C7_upload_image_response c7Recipe { image := none }).2 rfl⟩⟩

/-- Claim C8: the recipe persisted by perform_create is owned by the
caller, whatever ownership value the payload carried. -/
theorem C8_perform_create_forces_owner (callerId newId : Nat)
    (p : RecipePayload) :
    (perform_create callerId newId p).userId = callerId
    ∧ ∀ v : Option Nat,
        perform_create callerId newId { p with user := v } =
          perform_create callerId newId p :=
  ⟨rfl, fun _ => rfl⟩

/-- Claim C9: a tags or ingredients parameter equal to the empty string
behaves exactly as an absent parameter and causes no parse error, because
the truthiness check skips the comma-split-and-parse step. -/
theorem C9_empty_param_behaves_as_absent (db : List Recipe) (u : Nat)
    (other : Option String) :
    recipe_get_queryset db u (some "") other = recipe_get_queryset db u none other
    ∧ recipe_get_queryset db u other (some "") =
        recipe_get_queryset db u other none
    ∧ applyParamFilter db (some "") filterByTagIds = .ok db := by
  refine ⟨rfl, ?_, rfl⟩
  unfold recipe_get_queryset
  cases h : applyParamFilter db other filterByTagIds with
  | error e => simp only [h]
  | ok qs₁ =>
    simp only [h]
    rfl

/-- Claim C10: create_user succeeds when the password argument is omitted
(the Python signature defaults it to None): a non-empty email is the only
input it validates, and the stored credential is set_password applied to
None. -/
theorem C10_create_user_password_omitted (email : String) (extra : ExtraFields)
    (hne : email ≠ "") :
    create_user email none extra = .ok
      { email := normalize_email email,
        is_staff := extra.is_staff.getD false,
        is_superuser := extra.is_superuser.getD false,
        password := set_password none }
    ∧ ∀ u : PyUser, create_user email none extra = .ok u →
        u.password = Credential.hashed none := by
  refine ⟨create_user_ok email none extra hne, ?_⟩
  intro u hu
  rw [create_user_ok email none extra hne] at hu
  injection hu with hu
  subst hu
  rfl

/-- Witness for C10: a user created with no password stores a hash of
None. -/
theorem C10_witness :
    ("solo@example.com" ≠ "")
    ∧ create_user "solo@example.com" none {} = .ok
        { email := "solo@example.com", is_staff := false, is_superuser := false,
          password := Credential.hashed none } :=
  ⟨by decide,
   ((C10_create_user_password_omitted "solo@example.com" {} (by decide)).1).trans
     rfl⟩

end RecipeApi
